import Mathlib

/-!
Verification development for the DouyinLiveWebFetcher-Web repository.

This file gives a shallow embedding, in Lean, of the room-monitoring core of
the repository — the per-room event-ingestion pipeline
(`ws_handlers/handlers.py`), the in-memory room state and room manager
(`services/room_manager.py`), and the storage service
(`services/data_service.py`) — and proves or refutes the behavioural claims
made by the specification about it.

Modelling conventions:

* Python unbounded integers are `Int`; Python strings are `String` (or
  `List Char` where character-level reasoning is needed).
* Python `None` versus a value is `Option`.  Python truthiness of a possibly
  absent string (`if s:`) is modelled by `Option String` where `none` stands
  for both `None` and the empty string.
* The storage layer (`DataService`) is modelled as pure functions on an
  explicit `DB` value.  Row types carry the fields that
  `services/data_service.py` reads and writes (the service addresses rows by
  the stable room identifier `live_id` throughout).  The uniqueness
  constraint of `models/database.py` on `GiftMessage.trace_id`
  (`unique=True`) is modelled inside `DB.saveGiftMessage`: inserting a
  duplicate `trace_id` fails and leaves the table unchanged, as the
  `IntegrityError` branch of `save_gift_message` returns `None` after a
  rollback.
* Wall-clock time is an abstract integer number of hours (`DB.now`); only
  differences of timestamps matter for the claims below.
* Python `float` is modelled exactly as IEEE-754 binary64 arithmetic over
  exact fractions: a decimal literal is parsed to an exact fraction and
  rounded to the nearest 53-bit significand (ties to even), and every
  arithmetic result is rounded the same way.  See `Frac` and `ratToDouble`.
-/

set_option autoImplicit false

namespace Douyin

/-! ## Generic helpers (decidable list membership and association lists)

Python `x in list`, `dict[k]`, `dict.pop`, `del dict[k]` and first-match SQL
row updates are modelled by the following list functions.  Python dicts
preserve insertion order; updating a present key keeps its position,
inserting a new key appends. -/

/-- Decidable membership test on a list, as a `Bool`. -/
def memDec {α : Type} [DecidableEq α] (a : α) : List α → Bool
  | [] => false
  | x :: rest => if x = a then true else memDec a rest

/-- Look up the first value bound to key `k` in an association list
(Python `dict[k]` / `dict.get(k)`). -/
def lookupAssoc {α : Type} : List (String × α) → String → Option α
  | [], _ => none
  | (k0, v0) :: rest, k => if k0 = k then some v0 else lookupAssoc rest k

/-- Bind key `k` to `v`: replace the first occurrence in place, else append
(Python `dict[k] = v`). -/
def upsertAssoc {α : Type} : List (String × α) → String → α → List (String × α)
  | [], k, v => [(k, v)]
  | (k0, v0) :: rest, k, v =>
    if k0 = k then (k0, v) :: rest else (k0, v0) :: upsertAssoc rest k v

/-- A row of the `live_rooms` table (`models/database.py`, `LiveRoom`). -/
structure RoomRow where
  live_id : String
  anchor_name : Option String
  anchor_id : Option String
  status : String
  monitor_type : String
  auto_reconnect : Bool
  reconnect_count : Int
  error_message : Option String
  deriving DecidableEq, Repr

/-- A row of the `live_sessions` table (`LiveSession`).  `start_time` and
`end_time` are measured in hours on an abstract clock. -/
structure SessionRow where
  id : Nat
  live_id : String
  anchor_name : Option String
  status : String
  start_time : Int
  end_time : Option Int
  total_income : Int
  total_gift_count : Int
  total_chat_count : Int
  peak_viewer_count : Option Int
  deriving DecidableEq, Repr

/-- A row of the `chat_messages` table (`ChatMessage`). -/
structure ChatRow where
  live_id : String
  live_session_id : Option Nat
  anchor_name : Option String
  user_id : String
  user_name : String
  user_level : Int
  content : String
  is_gift_user : Bool
  deriving DecidableEq, Repr

/-- A row of the `gift_messages` table (`GiftMessage`).  `trace_id` carries
the table's uniqueness constraint (`unique=True`). -/
structure GiftRow where
  id : Nat
  live_id : String
  live_session_id : Option Nat
  anchor_name : Option String
  user_id : String
  user_name : String
  user_level : Int
  gift_id : Option String
  gift_name : String
  gift_count : Int
  gift_price : Int
  total_value : Int
  send_type : String
  group_id : Option String
  trace_id : Option String
  deriving DecidableEq, Repr

/-- A row of the `user_contributions` table (`UserContribution`), unique per
`(live_id, user_id)`. -/
structure ContributionRow where
  live_id : String
  anchor_name : Option String
  user_id : String
  user_name : String
  total_score : Int
  gift_count : Int
  chat_count : Int
  user_avatar : Option String
  deriving DecidableEq, Repr

/-- A row of the `system_events` audit table (`SystemEvent`). -/
structure EventRow where
  live_id : String
  anchor_name : Option String
  event_type : String
  event_message : Option String
  deriving DecidableEq, Repr

/-- The whole database, plus the wall clock (`now`, in hours) and the
auto-increment counters for surrogate primary keys. -/
structure DB where
  now : Int
  rooms : List RoomRow
  sessions : List SessionRow
  chats : List ChatRow
  gifts : List GiftRow
  contributions : List ContributionRow
  events : List EventRow
  nextGiftId : Nat
  nextSessionId : Nat
  deriving DecidableEq, Repr

/-! ## Storage operations (`services/data_service.py`)

Each definition mirrors one `DataService` method.  SQL `UPDATE ... WHERE`
against a unique key is modelled as a `map` that rewrites the matching rows
(the service fetches `.first()` and mutates it; under the schema's
uniqueness constraints the two coincide). -/

/-- `DataService.update_live_room` restricted to the fields the handlers
write: sets `status`/`error_message` when requested
(`update_live_room_status`), or anchor data. -/
def DB.updateLiveRoomStatus (db : DB) (live_id status : String)
    (error_message : Option String) : DB :=
  { db with rooms := db.rooms.map fun r =>
      if r.live_id = live_id then
        { r with status := status, error_message := error_message }
      else r }

/-- `DataService.update_live_room(live_id, anchor_name=..., anchor_id=...)`
as invoked from `_wsOnOpen`. -/
def DB.updateLiveRoomAnchor (db : DB) (live_id : String)
    (anchor_name anchor_id : Option String) : DB :=
  { db with rooms := db.rooms.map fun r =>
      if r.live_id = live_id then
        { r with anchor_name := anchor_name, anchor_id := anchor_id }
      else r }

/-- `DataService.log_system_event`: append an audit row. -/
def DB.logSystemEvent (db : DB) (live_id : String) (event_type : String)
    (message : Option String) (anchor : Option String) : DB :=
  { db with events := db.events ++
      [{ live_id := live_id, anchor_name := anchor, event_type := event_type,
         event_message := message }] }

/-- The first-match upsert inside `DataService.update_user_contribution`:
mutate the existing `(live_id, user_id)` row additively, or insert a fresh
one.  `user_avatar` and `anchor_name` are overwritten only when truthy. -/
def upsertContribution (live_id : String) (anchor : Option String)
    (user_id user_name : String) (gift_value gift_count chat_count : Int)
    (avatar : Option String) : List ContributionRow → List ContributionRow
  | [] =>
    [{ live_id := live_id, anchor_name := anchor, user_id := user_id,
       user_name := user_name, total_score := gift_value,
       gift_count := gift_count, chat_count := chat_count,
       user_avatar := avatar }]
  | c :: rest =>
    if c.live_id = live_id ∧ c.user_id = user_id then
      { c with total_score := c.total_score + gift_value,
               gift_count := c.gift_count + gift_count,
               chat_count := c.chat_count + chat_count,
               user_avatar := (match avatar with | some a => some a | none => c.user_avatar),
               user_name := user_name,
               anchor_name := (match anchor with | some a => some a | none => c.anchor_name) } :: rest
    else
      c :: upsertContribution live_id anchor user_id user_name gift_value
        gift_count chat_count avatar rest

/-- `DataService.update_user_contribution`. -/
def DB.updateUserContribution (db : DB) (live_id : String)
    (anchor : Option String) (user_id user_name : String)
    (gift_value gift_count chat_count : Int) (avatar : Option String) : DB :=
  let cs := upsertContribution live_id anchor user_id user_name gift_value
    gift_count chat_count avatar db.contributions
  { db with contributions := cs }

/-- `DataService.create_live_session(live_id, anchor_name, status='live')`. -/
def DB.createLiveSession (db : DB) (live_id : String)
    (anchor : Option String) : SessionRow × DB :=
  let s : SessionRow :=
    { id := db.nextSessionId, live_id := live_id, anchor_name := anchor,
      status := "live", start_time := db.now, end_time := none,
      total_income := 0, total_gift_count := 0, total_chat_count := 0,
      peak_viewer_count := none }
  (s, { db with sessions := db.sessions ++ [s],
                nextSessionId := db.nextSessionId + 1 })

/-- `DataService.get_current_live_session`: the `live` session of the room
with the latest `start_time` (`order_by(start_time.desc()).first()`). -/
def DB.getCurrentLiveSession (db : DB) (live_id : String) : Option SessionRow :=
  (db.sessions.filter fun s => s.live_id = live_id ∧ s.status = "live").foldl
    (fun best s =>
      match best with
      | none => some s
      | some b => if b.start_time < s.start_time then some s else some b)
    none

/-- `DataService.list_live_rooms(status=...)` (the ordering by creation time
does not matter to any claim). -/
def DB.listLiveRooms (db : DB) (status : String) : List RoomRow :=
  db.rooms.filter fun r => r.status = status

/-- One aggregated entry of `DataService.get_session_contributors`. -/
structure SessionContributor where
  user_id : String
  user_name : String
  total_score : Int
  gift_count : Int
  user_avatar : Option String
  deriving DecidableEq, Repr

/-- The per-user aggregation step of `get_session_contributors`: sum of
`total_value` and row count, grouped by `user_id`, keeping the latest
`user_name`. -/
def addGiftToContributors (acc : List (String × SessionContributor))
    (g : GiftRow) : List (String × SessionContributor) :=
  match lookupAssoc acc g.user_id with
  | some c =>
    upsertAssoc acc g.user_id
      { c with user_name := g.user_name,
               total_score := c.total_score + g.total_value,
               gift_count := c.gift_count + 1 }
  | none =>
    acc ++ [(g.user_id,
      { user_id := g.user_id, user_name := g.user_name,
        total_score := g.total_value, gift_count := 1, user_avatar := none })]

/-- `DataService.get_session_contributors`: aggregate the gift rows of one
session per user, then attach avatars from the `user_contributions` table
(the SQL `ORDER BY score DESC LIMIT 1000` only reorders/truncates the result
and is not needed by any claim). -/
def DB.getSessionContributors (db : DB) (live_id : String) (sid : Nat) :
    List SessionContributor :=
  let rows := db.gifts.filter fun g =>
    g.live_id = live_id ∧ g.live_session_id = some sid
  (rows.foldl addGiftToContributors []).map fun kv =>
    { kv.2 with user_avatar :=
        match (db.contributions.filter fun c =>
          c.live_id = live_id ∧ c.user_id = kv.1).head? with
        | some c => c.user_avatar
        | none => none }

/-- `DataService.cleanup_stale_live_sessions(stale_threshold_hours)`: every
session still `live` whose `start_time` is older than
`now - stale_threshold_hours` is set to `ended` with a synthesized
`end_time = start_time + 2` hours; returns the number of sessions closed. -/
def DB.cleanupStaleLiveSessions (db : DB) (stale_threshold_hours : Int) :
    Nat × DB :=
  let threshold_time := db.now - stale_threshold_hours
  let isStale : SessionRow → Prop := fun s =>
    s.status = "live" ∧ s.start_time < threshold_time
  ((db.sessions.filter fun s => isStale s).length,
   { db with sessions := db.sessions.map fun s =>
       if s.status = "live" ∧ s.start_time < threshold_time then
         { s with status := "ended", end_time := some (s.start_time + 2) }
       else s })

/-! ## Wire messages and the in-memory per-room state

`DouyinUser` carries the fields of the protobuf `User` message that the
handlers read (`id`, `id_str`, `nick_name`, `pay_grade.level`,
`avatar_thumb`, the last one flattened to an optional URL). -/

/-- In-memory combo tracking entry,
`monitored_room.combo_gifts[combo_key] = {'last_count': …, 'db_id': …}`. -/
structure ComboEntry where
  last_count : Int
  db_id : Option Nat
  deriving DecidableEq, Repr

/-- One entry of the in-memory contribution board,
`monitored_room.user_contributions[user_id]`. -/
structure ContribEntry where
  user_name : String
  score : Int
  avatar : Option String
  gift_count : Int
  deriving DecidableEq, Repr

/-- The mutable attributes of `WebDouyinLiveFetcher`
(`ws_handlers/handlers.py`, `__init__`, lines 94–101). -/
structure FetcherState where
  traceId_list : List String
  gift_users : List String
  total_income : Int
  current_session_id : Option Nat
  current_viewer_count : Int
  max_viewer_count : Int
  anchor_name : Option String
  deriving DecidableEq, Repr

/-- The mutable attributes of `MonitoredRoom`
(`services/room_manager.py`, `__init__`) that the handlers touch.
`anchor_attr` models the dynamically-created `anchor_name` attribute:
`none` means the attribute was never assigned (`hasattr` is false), and
`some v` means it was assigned value `v` (itself optional, as the
assigned Python value may be `None`). -/
structure RoomState where
  anchor_attr : Option (Option String)
  user_contributions : List (String × ContribEntry)
  combo_gifts : List (String × ComboEntry)
  stats_total_income : Int
  deriving DecidableEq, Repr

/-- The full state a handler invocation can read and write: the fetcher
object, its `MonitoredRoom`, and the database. -/
structure SysState where
  live_id : String
  fs : FetcherState
  rs : RoomState
  db : DB
  deriving DecidableEq, Repr

/-! ## User-id canonicalization -/

/-- The in-memory board mutation of `MonitoredRoom.update_contribution`
(room_manager.py lines 320–340): create the entry if absent, refresh name
and (truthy) avatar, then add `gift_value` to the score and `gift_count`
to the count. -/
def boardUpsert (bd : List (String × ContribEntry)) (user_id user_name : String)
    (gift_value gift_count : Int) (user_avatar : Option String) :
    List (String × ContribEntry) :=
  let entry0 : ContribEntry :=
    match lookupAssoc bd user_id with
    | none =>
      { user_name := user_name, score := 0, avatar := user_avatar,
        gift_count := 0 }
    | some e =>
      { e with user_name := user_name,
               avatar := (match user_avatar with | some a => some a | none => e.avatar) }
  let entry1 : ContribEntry :=
    { entry0 with score := entry0.score + gift_value,
                  gift_count := entry0.gift_count + gift_count }
  upsertAssoc bd user_id entry1

/-- `MonitoredRoom.update_contribution` (room_manager.py lines 317–351):
update the in-memory board entry for `user_id` via `boardUpsert` and mirror
the change into the `user_contributions` table — passing `gift_count=1` to
the database upsert regardless of the in-memory increment, and never
forwarding the `chat_count` argument. -/
def updateContributionRoom (s : SysState) (user_id user_name : String)
    (gift_value gift_count : Int) (_chat_count : Int)
    (user_avatar : Option String) : SysState :=
  let board1 := boardUpsert s.rs.user_contributions user_id user_name
    gift_value gift_count user_avatar
  let rs1 := { s.rs with user_contributions := board1 }
  let db1 := s.db.updateUserContribution s.live_id s.rs.anchor_attr.join
    user_id user_name gift_value 1 0 user_avatar
  { s with rs := rs1, db := db1 }

/-- `config.MONITOR_MAX_RETRIES` (config.py line 39, default 5). -/
def MONITOR_MAX_RETRIES : Nat := 5

/-- The names of the attributes bound on a `MonitoredRoom` instance: the
constructor arguments and instance attributes of `__init__`
(room_manager.py lines 20–56) and the methods of the class body
(lines 58–378).  This is the complete attribute surface of the class —
there is no `__getattr__` and no other assignment to instances. -/
def monitoredRoomAttributeNames : List String :=
  ["live_id", "db", "manager", "socketio", "fetcher", "thread",
   "shutdown_event", "reconnect_count", "last_connect_time", "stats",
   "last_stats", "user_contributions", "gift_users", "combo_gifts",
   "start", "stop", "_monitor_loop", "_poll_room_status",
   "should_reconnect", "get_stats", "update_contribution",
   "get_contribution_rank"]

/-- A Python exception escaping a callback. -/
inductive PyError where
  | attributeError
  | keyError
  deriving DecidableEq, Repr

/-- The result of the one-shot anchor probe `self._fetcher.anchor_info`
(crawler/fetcher.py): display name and id, each possibly absent/falsy.
`none` for the whole probe models the exception path of the guarding
`try/except` (handlers.py lines 639–663). -/
structure AnchorProbe where
  anchor_name : Option String
  anchor_id : Option String
  deriving DecidableEq, Repr

/-- The bootstrap body of `_wsOnOpen` after line 636 (handlers.py lines
638–709): persist probed anchor data on the room; adopt the existing
`live` session or create a fresh session and clear the board; finally set
the room status to `monitoring`.  The session-adoption branch's
contribution-board load (lines 675–686) reads keys
`'user_name'`/`'total_score'` from dicts keyed
`'nickname'`/`'contribution_value'` (data_service.py lines 626–634) with
no surrounding `try`, so when the local board is empty and a contributor
exists the callback raises `KeyError` after adopting the session id and
never reaches the status update. -/
def wsOnOpenBody (probe : Option AnchorProbe) (s : SysState) :
    Except PyError SysState :=
  -- lines 638–663: anchor info, guarded by try/except
  let s1 :=
    match probe with
    | some info =>
      if info.anchor_name.isSome || info.anchor_id.isSome then
        { s with db := s.db.updateLiveRoomAnchor s.live_id info.anchor_name info.anchor_id,
                 rs := { s.rs with anchor_attr := some info.anchor_name },
                 fs := { s.fs with anchor_name := info.anchor_name } }
      else s
    | none => s
  -- lines 665–709: adopt or create the live session
  match s1.db.getCurrentLiveSession s1.live_id with
  | some cs =>
    if s1.rs.user_contributions = [] ∧
        s1.db.getSessionContributors s1.live_id cs.id ≠ [] then
      Except.error PyError.keyError
    else
      let s2 := { s1 with fs := { s1.fs with current_session_id := some cs.id,
                                             anchor_name := cs.anchor_name } }
      Except.ok { s2 with db := s2.db.updateLiveRoomStatus s2.live_id "monitoring" none }
  | none =>
    let rs1 := { s1.rs with user_contributions := [] }
    let res := s1.db.createLiveSession s1.live_id s1.fs.anchor_name
    let fs1 := { s1.fs with current_session_id := some res.1.id,
                            current_viewer_count := 0, max_viewer_count := 0 }
    let s2 := { s1 with fs := fs1, rs := rs1, db := res.2 }
    Except.ok { s2 with db := s2.db.updateLiveRoomStatus s2.live_id "monitoring" none }

/-- `_wsOnOpen` (handlers.py lines 631–709).  Its first statement,
`self.monitored_room.reset_offline_counter()` (line 636), looks up the
attribute `reset_offline_counter` on the `MonitoredRoom` instance; when the
attribute does not exist the lookup raises `AttributeError` and the
callback aborts before any of the bootstrap work. -/
def wsOnOpen (probe : Option AnchorProbe) (s : SysState) :
    Except PyError SysState :=
  if memDec "reset_offline_counter" monitoredRoomAttributeNames then
    wsOnOpenBody probe s
  else Except.error PyError.attributeError

/-! ## Offline polling (`MonitoredRoom._poll_room_status`,
room_manager.py lines 242–296)

The loop, for a run in which the shutdown event is never set and every
probe returns without raising: probe, return success on a live probe,
otherwise count the attempt and sleep `MONITOR_STATUS_POLL_INTERVAL`
seconds, giving up after `maxPollAttempts` negative probes.  `probes i`
is the result of the `i`-th probe (0-based); the result records whether
broadcasting was detected, how many probes ran, the total seconds slept,
and the database effects. -/

/-- `RoomManager._cleanup_stale_statuses`: for every room whose persisted
status is `monitoring` but which is not in the in-memory `active_rooms`
registry, write status `stopped` with the restart-reset reason and append a
`status_reset` audit event. -/
def cleanupStaleStatuses (active : List String) (db : DB) : DB :=
  (db.listLiveRooms "monitoring").foldl
    (fun acc room =>
      if memDec room.live_id active then acc
      else
        (acc.updateLiveRoomStatus room.live_id "stopped"
          (some "应用重启后状态重置")).logSystemEvent room.live_id
          "status_reset" (some "应用重启：检测到状态不一致，已重置为 stopped")
          room.anchor_name)
    db

/-- `RoomManager.__init__` (room_manager.py lines 384–398): the registry
starts empty (`self.active_rooms = {}`) and `_cleanup_stale_statuses` runs
immediately.  No other database work happens during construction — in
particular `cleanup_stale_live_sessions` is not invoked. -/
def roomManagerBoot (db : DB) : DB :=
  cleanupStaleStatuses [] db

/-! ## The locale number parser (`parse_formatted_number`,
handlers.py lines 18–51)

Python `float` is IEEE-754 binary64.  We model it exactly: `Frac` is an
exact (not necessarily reduced) fraction with positive denominator;
`ratToDouble` rounds a fraction to the nearest binary64 value — 53
significant bits, ties to even — and every float operation result is
re-rounded.  Exponent range is unbounded (no overflow to infinity and no
subnormal flushing; the protocol's viewer-count strings are far inside the
normal range).  `float(...)` literal parsing is modelled for plain decimal
literals (optional sign, digits, optional fraction part); exponent forms,
`inf`/`nan` and digit underscores do not occur in the protocol strings. -/

/-- An exact fraction: `num / den` with `den > 0` maintained by all
constructions below. -/
structure Frac where
  num : Int
  den : Int
  deriving DecidableEq, Repr

/-- Embed an integer. -/
def Frac.ofInt (n : Int) : Frac := ⟨n, 1⟩

/-- Exact product of fractions. -/
def Frac.mul (a b : Frac) : Frac := ⟨a.num * b.num, a.den * b.den⟩

/-- Exact negation. -/
def Frac.neg (a : Frac) : Frac := ⟨-a.num, a.den⟩

/-- Scale a positive fraction by powers of two into the binade
`[2^52, 2^53)`, returning the scaled fraction and the binary exponent:
the input equals `result * 2 ^ exponent`. -/
def scaleLoop : Nat → Frac → Int → Frac × Int
  | 0, q, e => (q, e)
  | fuel + 1, q, e =>
    if q.num < 4503599627370496 * q.den then
      scaleLoop fuel ⟨q.num * 2, q.den⟩ (e - 1)
    else if 9007199254740992 * q.den ≤ q.num then
      scaleLoop fuel ⟨q.num, q.den * 2⟩ (e + 1)
    else (q, e)

/-- Round a non-negative fraction to the nearest integer, ties to even. -/
def roundHalfEvenF (q : Frac) : Int :=
  let f := q.num.ediv q.den
  let r := q.num - f * q.den
  if 2 * r < q.den then f
  else if q.den < 2 * r then f + 1
  else if f % 2 = 0 then f else f + 1

/-- Round a positive fraction to the nearest binary64 value. -/
def ratToDoubleP (q : Frac) : Frac :=
  let p := scaleLoop 4400 q 0
  let r := roundHalfEvenF p.1
  if 0 ≤ p.2 then ⟨r * ((2 : Int) ^ p.2.toNat), 1⟩
  else ⟨r, (2 : Int) ^ (-p.2).toNat⟩

/-- Round any fraction to the nearest binary64 value (the value a Python
`float` holds). -/
def ratToDouble (q : Frac) : Frac :=
  if q.num = 0 then ⟨0, 1⟩
  else if q.num < 0 then (ratToDoubleP q.neg).neg
  else ratToDoubleP q

/-- Binary64 product: exact product, then rounding — IEEE-754 `*`. -/
def doubleMul (a b : Frac) : Frac := ratToDouble (a.mul b)

/-- Python `int(...)` applied to a float value: truncation toward zero. -/
def pyTruncFrac (q : Frac) : Int :=
  if q.num < 0 then -((-q.num).ediv q.den) else q.num.ediv q.den

/-- The whitespace characters stripped by `str.strip()` (the ASCII subset;
the protocol strings contain no exotic unicode spacing). -/
def isPySpace (c : Char) : Bool :=
  c = ' ' || c = '\t' || c = '\n' || c = '\r' || c = '\x0b' || c = '\x0c'

/-- Python `str.strip()`. -/
def pyStrip (l : List Char) : List Char :=
  ((l.dropWhile isPySpace).reverse.dropWhile isPySpace).reverse

/-- Python `str.replace(c, '')` for a single-character pattern: remove
every occurrence. -/
def removeAllChar (c : Char) (l : List Char) : List Char :=
  l.filter fun x => x ≠ c

/-- Decimal digit-string value, most significant first. -/
def digitsToNat : List Char → Nat → Nat
  | [], acc => acc
  | c :: rest, acc => digitsToNat rest (acc * 10 + (c.toNat - '0'.toNat))

/-- Decimal digit-string value. -/
def digitsVal (l : List Char) : Nat := digitsToNat l 0

/-- All characters are decimal digits. -/
def allDigits (l : List Char) : Bool := l.all fun c => c.isDigit

/-- Python `float(s)` restricted to plain decimal literals: optional sign,
an integer part and an optional `.` fraction part, at least one digit in
total; returns the exact decimal value, or `none` where Python raises
`ValueError`. -/
def pyFloatLitOfChars (l : List Char) : Option Frac :=
  let t := pyStrip l
  let sb : Int × List Char :=
    match t with
    | c :: rest => if c = '+' then (1, rest) else if c = '-' then (-1, rest) else (1, t)
    | [] => (1, t)
  let body := sb.2
  let ip := body.takeWhile fun c => c.isDigit
  let rest := body.dropWhile fun c => c.isDigit
  match rest with
  | [] => if ip = [] then none else some ⟨sb.1 * (digitsVal ip : Int), 1⟩
  | c :: frac =>
    if c = '.' ∧ allDigits frac ∧ (ip ≠ [] ∨ frac ≠ []) then
      some ⟨sb.1 * ((digitsVal ip : Int) * ((10 : Int) ^ frac.length) + (digitsVal frac : Int)),
            (10 : Int) ^ frac.length⟩
    else none

/-- Python `int(s)` on a string: optional sign and a non-empty run of
digits after stripping whitespace; `none` where Python raises
`ValueError`. -/
def pyIntOfChars (l : List Char) : Option Int :=
  let t := pyStrip l
  match t with
  | [] => none
  | c :: rest =>
    if c = '+' then
      if rest ≠ [] ∧ allDigits rest then some ((digitsVal rest : Int)) else none
    else if c = '-' then
      if rest ≠ [] ∧ allDigits rest then some (-(digitsVal rest : Int)) else none
    else if allDigits (c :: rest) then some ((digitsVal (c :: rest) : Int))
    else none

/-- The dynamically-typed argument of `parse_formatted_number`. -/
inductive PyVal where
  | pyNone
  | pyStr (s : String)
  | pyInt (n : Int)
  | pyFloat (q : Frac)
  deriving DecidableEq, Repr

/-- `parse_formatted_number` (handlers.py lines 18–51): `None` parses to 0,
numbers are truncated to `int`, and strings are stripped and dispatched on
the presence of `万` (value × 10⁴) or `亿` (value × 10⁸) — computed as
`int(float(num_str) * multiplier)` in binary64 — falling back to `int(s)`
for a bare integer literal, with 0 for anything unparseable. -/
def parse_formatted_number (value : PyVal) : Int :=
  match value with
  | .pyNone => 0
  | .pyInt n => n
  | .pyFloat q => pyTruncFrac q
  | .pyStr s =>
    let cs := pyStrip s.data
    if cs = [] then 0
    else if memDec '万' cs then
      match pyFloatLitOfChars (pyStrip (removeAllChar '万' cs)) with
      | some q => pyTruncFrac (doubleMul (ratToDouble q) (Frac.ofInt 10000))
      | none => 0
    else if memDec '亿' cs then
      match pyFloatLitOfChars (pyStrip (removeAllChar '亿' cs)) with
      | some q => pyTruncFrac (doubleMul (ratToDouble q) (Frac.ofInt 100000000))
      | none => 0
    else
      match pyIntOfChars cs with
      | some n => n
      | none => 0

/-! ## Concrete fixtures for counterexamples and witnesses -/

/-- A fresh `live` session row. -/
def liveSessionRow (sid : Nat) (live : String) (start : Int) : SessionRow :=
  { id := sid, live_id := live, anchor_name := none, status := "live",
    start_time := start, end_time := none, total_income := 0,
    total_gift_count := 0, total_chat_count := 0, peak_viewer_count := none }

/-- A database holding room `R3` with persisted status `monitoring` and a
stale live session (started at hour 0, now hour 100). -/
def dbStale : DB :=
  { now := 100,
    rooms := [{ live_id := "R3", anchor_name := none, anchor_id := none,
                status := "monitoring", monitor_type := "24h",
                auto_reconnect := true, reconnect_count := 0,
                error_message := none }],
    sessions := [liveSessionRow 7 "R3" 0], chats := [], gifts := [],
    contributions := [], events := [], nextGiftId := 1, nextSessionId := 8 }

theorem memDec_eq_true_iff {α : Type} [DecidableEq α] (a : α) (l : List α) :
    memDec a l = true ↔ a ∈ l := by
  induction l with
  | nil => simp [memDec]
  | cons x rest ih =>
    by_cases h : x = a
    · subst h; simp [memDec]
    · simp [memDec, h, ih, Ne.symm h]

theorem memDec_eq_false_iff {α : Type} [DecidableEq α] (a : α) (l : List α) :
    memDec a l = false ↔ a ∉ l := by
  rw [← memDec_eq_true_iff a l]
  cases memDec a l <;> simp

theorem dropWhile_eq_self_of (p : Char → Bool) (l : List Char)
    (h : ∀ c ∈ l, p c = false) : l.dropWhile p = l := by
  cases l with
  | nil => rfl
  | cons c rest => simp [List.dropWhile, h c (by simp)]

theorem takeWhile_eq_self_of (p : Char → Bool) (l : List Char)
    (h : ∀ c ∈ l, p c = true) : l.takeWhile p = l := by
  induction l with
  | nil => rfl
  | cons c rest ih =>
    simp only [List.takeWhile, h c (by simp)]
    rw [ih (fun x hx => h x (by simp [hx]))]

theorem dropWhile_eq_nil_of (p : Char → Bool) (l : List Char)
    (h : ∀ c ∈ l, p c = true) : l.dropWhile p = [] := by
  induction l with
  | nil => rfl
  | cons c rest ih =>
    simp only [List.dropWhile, h c (by simp)]
    exact ih (fun x hx => h x (by simp [hx]))

theorem pyStrip_eq_self (l : List Char)
    (h : ∀ c ∈ l, isPySpace c = false) : pyStrip l = l := by
  unfold pyStrip
  rw [dropWhile_eq_self_of _ _ h,
      dropWhile_eq_self_of _ _ (fun c hc => h c (List.mem_reverse.mp hc)),
      List.reverse_reverse]

theorem isDigit_not_space {c : Char} (h : c.isDigit = true) :
    isPySpace c = false := by
  simp only [isPySpace, Bool.or_eq_false_iff, decide_eq_false_iff_not]
  refine ⟨⟨⟨⟨⟨?_, ?_⟩, ?_⟩, ?_⟩, ?_⟩, ?_⟩ <;>
    · intro he; subst he; exact absurd h (by decide)

theorem isDigit_ne {c d : Char} (h : c.isDigit = true)
    (hd : d.isDigit = false) : c ≠ d := by
  intro he; subst he; rw [h] at hd; cases hd

theorem data_mk (l : List Char) : (String.mk l).data = l := rfl

theorem pyFloatLit_digits (s : List Char) (hne : s ≠ [])
    (hdig : ∀ c ∈ s, c.isDigit = true) :
    pyFloatLitOfChars s = some (Frac.ofInt (digitsVal s)) := by
  obtain ⟨c, rest, rfl⟩ := List.exists_cons_of_ne_nil hne
  have hc := hdig c (by simp)
  have hstrip : pyStrip (c :: rest) = c :: rest :=
    pyStrip_eq_self _ (fun x hx => isDigit_not_space (hdig x hx))
  have h1 : c ≠ '+' := isDigit_ne hc (by decide)
  have h2 : c ≠ '-' := isDigit_ne hc (by decide)
  have htake : (c :: rest).takeWhile (fun c => c.isDigit) = c :: rest :=
    takeWhile_eq_self_of _ _ hdig
  have hdrop : (c :: rest).dropWhile (fun c => c.isDigit) = [] :=
    dropWhile_eq_nil_of _ _ hdig
  simp only [pyFloatLitOfChars, hstrip, if_neg h1, if_neg h2, htake, hdrop]
  simp [Frac.ofInt]

theorem pyIntOfChars_digits (s : List Char) (hne : s ≠ [])
    (hdig : ∀ c ∈ s, c.isDigit = true) :
    pyIntOfChars s = some ((digitsVal s : Int)) := by
  obtain ⟨c, rest, rfl⟩ := List.exists_cons_of_ne_nil hne
  have hc := hdig c (by simp)
  have hstrip : pyStrip (c :: rest) = c :: rest :=
    pyStrip_eq_self _ (fun x hx => isDigit_not_space (hdig x hx))
  have h1 : c ≠ '+' := isDigit_ne hc (by decide)
  have h2 : c ≠ '-' := isDigit_ne hc (by decide)
  have hall : allDigits (c :: rest) = true := by
    exact List.all_eq_true.mpr hdig
  simp only [pyIntOfChars, hstrip, if_neg h1, if_neg h2, hall, if_pos trivial]

theorem parse_digits (s : List Char) (hne : s ≠ [])
    (hdig : ∀ c ∈ s, c.isDigit = true) :
    parse_formatted_number (.pyStr (String.mk s)) = (digitsVal s : Int) := by
  have hstrip : pyStrip s = s :=
    pyStrip_eq_self _ (fun x hx => isDigit_not_space (hdig x hx))
  have h1 : memDec '万' s = false := (memDec_eq_false_iff _ _).mpr
    (fun hm => absurd (hdig _ hm) (by decide))
  have h2 : memDec '亿' s = false := (memDec_eq_false_iff _ _).mpr
    (fun hm => absurd (hdig _ hm) (by decide))
  simp only [parse_formatted_number, data_mk, hstrip, if_neg hne, h1, h2,
    Bool.false_eq_true, if_false, pyIntOfChars_digits s hne hdig]

theorem parse_digits_wan (s : List Char) (hne : s ≠ [])
    (hdig : ∀ c ∈ s, c.isDigit = true) :
    parse_formatted_number (.pyStr (String.mk (s ++ ['万']))) =
      pyTruncFrac (doubleMul (ratToDouble (Frac.ofInt (digitsVal s)))
        (Frac.ofInt 10000)) := by
  have hsp : ∀ c ∈ s ++ ['万'], isPySpace c = false := by
    intro c hc
    rcases List.mem_append.mp hc with h | h
    · exact isDigit_not_space (hdig c h)
    · simp at h; subst h; decide
  have hstrip := pyStrip_eq_self _ hsp
  have hne2 : s ++ ['万'] ≠ [] := by simp
  have hmem : memDec '万' (s ++ ['万']) = true :=
    (memDec_eq_true_iff _ _).mpr (by simp)
  have hrm : removeAllChar '万' (s ++ ['万']) = s := by
    unfold removeAllChar
    rw [List.filter_append]
    have h2 : ∀ a ∈ s, a ≠ '万' := fun a ha => isDigit_ne (hdig a ha) (by decide)
    have h3 : List.filter (fun x => decide (x ≠ '万')) s = s := by
      rw [List.filter_eq_self]
      intro a ha
      simpa using h2 a ha
    have h4 : List.filter (fun x => decide (x ≠ '万')) ['万'] = [] := by simp
    rw [h3, h4, List.append_nil]
  have hstrip2 : pyStrip s = s :=
    pyStrip_eq_self _ (fun x hx => isDigit_not_space (hdig x hx))
  simp only [parse_formatted_number, data_mk, hstrip, if_neg hne2, hmem,
    if_true, hrm, hstrip2, pyFloatLit_digits s hne hdig]

theorem parse_digits_yi (s : List Char) (hne : s ≠ [])
    (hdig : ∀ c ∈ s, c.isDigit = true) :
    parse_formatted_number (.pyStr (String.mk (s ++ ['亿']))) =
      pyTruncFrac (doubleMul (ratToDouble (Frac.ofInt (digitsVal s)))
        (Frac.ofInt 100000000)) := by
  have hsp : ∀ c ∈ s ++ ['亿'], isPySpace c = false := by
    intro c hc
    rcases List.mem_append.mp hc with h | h
    · exact isDigit_not_space (hdig c h)
    · simp at h; subst h; decide
  have hstrip := pyStrip_eq_self _ hsp
  have hne2 : s ++ ['亿'] ≠ [] := by simp
  have hwan : memDec '万' (s ++ ['亿']) = false := (memDec_eq_false_iff _ _).mpr
    (by
      intro hm
      rcases List.mem_append.mp hm with h | h
      · exact absurd (hdig _ h) (by decide)
      · simp at h)
  have hmem : memDec '亿' (s ++ ['亿']) = true :=
    (memDec_eq_true_iff _ _).mpr (by simp)
  have hrm : removeAllChar '亿' (s ++ ['亿']) = s := by
    unfold removeAllChar
    rw [List.filter_append]
    have h2 : ∀ a ∈ s, a ≠ '亿' := fun a ha => isDigit_ne (hdig a ha) (by decide)
    have h3 : List.filter (fun x => decide (x ≠ '亿')) s = s := by
      rw [List.filter_eq_self]
      intro a ha
      simpa using h2 a ha
    have h4 : List.filter (fun x => decide (x ≠ '亿')) ['亿'] = [] := by simp
    rw [h3, h4, List.append_nil]
  have hstrip2 : pyStrip s = s :=
    pyStrip_eq_self _ (fun x hx => isDigit_not_space (hdig x hx))
  simp only [parse_formatted_number, data_mk, hstrip, if_neg hne2, hwan,
    Bool.false_eq_true, if_false, hmem, if_true, hrm, hstrip2,
    pyFloatLit_digits s hne hdig]

/-! ## Claim C9 — the locale number parser -/

/-- C9: the cumulative-viewer parser satisfies the enumerated cases —
`parse("46.8万") = 468000`, `parse("1.2亿") = 120000000`,
`parse("123") = 123`, `parse("") = 0`, `parse(None) = 0` — where the `万`
and `亿` results are computed in exact binary64 arithmetic; and in general
a bare integer literal parses to its value, while an integer literal
followed by exactly `万` (resp. `亿`) parses to the binary64 product of its
float value with 10⁴ (resp. 10⁸), truncated to `int`. -/
theorem c9_parse_formatted_number_spec :
    parse_formatted_number (.pyStr "46.8万") = 468000 ∧
    parse_formatted_number (.pyStr "1.2亿") = 120000000 ∧
    parse_formatted_number (.pyStr "123") = 123 ∧
    parse_formatted_number (.pyStr "") = 0 ∧
    parse_formatted_number .pyNone = 0 ∧
    (∀ s : List Char, s ≠ [] → (∀ c ∈ s, c.isDigit = true) →
      parse_formatted_number (.pyStr (String.mk s)) = (digitsVal s : Int)) ∧
    (∀ s : List Char, s ≠ [] → (∀ c ∈ s, c.isDigit = true) →
      parse_formatted_number (.pyStr (String.mk (s ++ ['万']))) =
        pyTruncFrac (doubleMul (ratToDouble (Frac.ofInt (digitsVal s)))
          (Frac.ofInt 10000))) ∧
    (∀ s : List Char, s ≠ [] → (∀ c ∈ s, c.isDigit = true) →
      parse_formatted_number (.pyStr (String.mk (s ++ ['亿']))) =
        pyTruncFrac (doubleMul (ratToDouble (Frac.ofInt (digitsVal s)))
          (Frac.ofInt 100000000))) := by
  refine ⟨by decide, by decide, by decide, by decide, rfl,
    parse_digits, parse_digits_wan, parse_digits_yi⟩

/-- C9 witness: the schematic clauses applied at the concrete digit string
`"42"`, and concretely `42万` parses to `420000`. -/
theorem c9_parse_formatted_number_spec_witness :
    parse_formatted_number (.pyStr (String.mk ['4', '2'])) =
      (digitsVal ['4', '2'] : Int) ∧
    parse_formatted_number (.pyStr (String.mk (['4', '2'] ++ ['万']))) =
      pyTruncFrac (doubleMul (ratToDouble (Frac.ofInt (digitsVal ['4', '2'])))
        (Frac.ofInt 10000)) ∧
    parse_formatted_number (.pyStr (String.mk (['4', '2'] ++ ['亿']))) =
      pyTruncFrac (doubleMul (ratToDouble (Frac.ofInt (digitsVal ['4', '2'])))
        (Frac.ofInt 100000000)) :=
  ⟨c9_parse_formatted_number_spec.2.2.2.2.2.1 ['4', '2'] (by decide) (by decide),
   c9_parse_formatted_number_spec.2.2.2.2.2.2.1 ['4', '2'] (by decide) (by decide),
   c9_parse_formatted_number_spec.2.2.2.2.2.2.2 ['4', '2'] (by decide) (by decide)⟩

/-! ## Claim C3 — the stream-open callback -/

/-- C3: the claim states that every invocation of the stream-open callback
completes without raising and performs the full bootstrap.  In the code,
the callback's first action calls `self.monitored_room.reset_offline_counter()`
(handlers.py line 636), but class `MonitoredRoom` defines no such attribute,
so every invocation raises `AttributeError` before any bootstrap work —
no anchor persistence, no session adoption or creation, and no status
write happen.  This theorem evaluates the callback on all inputs. -/
theorem c3_wsOnOpen_always_raises (probe : Option AnchorProbe) (s : SysState) :
    wsOnOpen probe s = Except.error PyError.attributeError := by
  have h : memDec "reset_offline_counter" monitoredRoomAttributeNames = false := by
    decide
  simp [wsOnOpen, h]

/-! ## Session bump algebra -/

theorem cleanupStaleStatuses_sessions (active : List String) (db : DB) :
    (cleanupStaleStatuses active db).sessions = db.sessions := by
  unfold cleanupStaleStatuses
  generalize db.listLiveRooms "monitoring" = L
  induction L generalizing db with
  | nil => rfl
  | cons room rest ih =>
    rw [List.foldl_cons]
    rw [ih]
    by_cases h : memDec room.live_id active = true
    · simp [h]
    · simp only [Bool.not_eq_true] at h
      simp [h, DB.updateLiveRoomStatus, DB.logSystemEvent]

/-- C7 counterexample: the concrete database `dbStale` holds room `R3`
(status `monitoring`) and a live session open since hour 0 at clock hour
100 — stale for any reasonable threshold.  After the Manager's start-up
construction (`RoomManager.__init__`), the session is still `live` with no
end time: the Manager never invokes the stale-session janitor, refuting
the claim that at start-up every stale live session is set to `ended`. -/
theorem c7_counterexample :
    (roomManagerBoot dbStale).sessions.map SessionRow.status = ["live"] ∧
    (roomManagerBoot dbStale).sessions.map SessionRow.end_time = [none] ∧
    dbStale.now - (liveSessionRow 7 "R3" 0).start_time = 100 := by
  decide

/-- C7 (amended): the stale-session janitor
`DataService.cleanup_stale_live_sessions`, when invoked, sets every session
still `live` whose start time is older than the staleness threshold to
`ended` with a synthesized end time equal to its start time plus two hours,
leaves every other session untouched, and returns the number of sessions it
closed; but the Room Manager does not invoke it at start-up (nor does any
other code in the repository): the Manager's construction leaves the
sessions table unchanged. -/
theorem c7_stale_session_janitor (db : DB) (threshold : Int) :
    ((DB.cleanupStaleLiveSessions db threshold).1 =
      (db.sessions.filter fun s =>
        s.status = "live" ∧ s.start_time < db.now - threshold).length) ∧
    (∀ s ∈ db.sessions, s.status = "live" → s.start_time < db.now - threshold →
      ∃ s' ∈ (DB.cleanupStaleLiveSessions db threshold).2.sessions,
        s'.id = s.id ∧ s'.status = "ended" ∧
        s'.end_time = some (s.start_time + 2)) ∧
    (∀ s ∈ db.sessions, ¬(s.status = "live" ∧ s.start_time < db.now - threshold) →
      s ∈ (DB.cleanupStaleLiveSessions db threshold).2.sessions) ∧
    (∀ db2 : DB, (roomManagerBoot db2).sessions = db2.sessions) := by
  refine ⟨rfl, ?_, ?_, fun db2 => cleanupStaleStatuses_sessions [] db2⟩
  · intro s hs hlive hold
    refine ⟨{ s with status := "ended", end_time := some (s.start_time + 2) },
      ?_, rfl, rfl, rfl⟩
    simp only [DB.cleanupStaleLiveSessions]
    refine List.mem_map.mpr ⟨s, hs, ?_⟩
    rw [if_pos ⟨hlive, hold⟩]
  · intro s hs hnot
    simp only [DB.cleanupStaleLiveSessions]
    refine List.mem_map.mpr ⟨s, hs, ?_⟩
    rw [if_neg hnot]

/-- C7 witness: the janitor applied to `dbStale` with a 24-hour threshold
closes its stale session with the synthesized end time. -/
theorem c7_stale_session_janitor_witness :
    ∃ s' ∈ (DB.cleanupStaleLiveSessions dbStale 24).2.sessions,
      s'.id = (liveSessionRow 7 "R3" 0).id ∧ s'.status = "ended" ∧
      s'.end_time = some ((liveSessionRow 7 "R3" 0).start_time + 2) :=
  (c7_stale_session_janitor dbStale 24).2.1 (liveSessionRow 7 "R3" 0)
    (by decide) (by decide) (by decide)

/-! ## Claim C2 — gift idempotence -/

theorem updateContributionRoom_fs (s : SysState) (uid un : String)
    (gv gc cc : Int) (av : Option String) :
    (updateContributionRoom s uid un gv gc cc av).fs = s.fs := rfl

end Douyin
